import Mathlib

/-!
Shallow embedding of the pathfinding-capability state manager implemented in
indra/newview/llpathfindingmanager.cpp: the agent-state machine, the navmesh
cache bookkeeping of the manager facade, and the LinksetsResponder join
coordinator that merges the object-linksets and terrain-linksets HTTP
completions into one callback.  Machine state is threaded explicitly; the
invocation of the joined callback, of agent-state listeners and of navmesh
listeners is recorded in logs, and issued HTTP operations are recorded in a
request log.  C++ field and method names are kept.
-/

/-- EAgentState from llpathfindingmanager.h: the agent permission state. -/
inductive EAgentState where
  | kAgentStateUnknown
  | kAgentStateNotEnabled
  | kAgentStateFrozen
  | kAgentStateUnfrozen
  | kAgentStateError
  deriving DecidableEq, Repr

open EAgentState

/-- ELinksetsRequestStatus from llpathfindingmanager.h: the synchronous status
of a linksets get/set request and the status handed to the joined callback. -/
inductive ELinksetsRequestStatus where
  | kLinksetsRequestNotEnabled
  | kLinksetsRequestStarted
  | kLinksetsRequestCompleted
  | kLinksetsRequestError
  deriving DecidableEq, Repr

open ELinksetsRequestStatus

/-- EMessagingState, the private sub-operation state of LinksetsResponder. -/
inductive EMessagingState where
  | kNotRequested
  | kWaiting
  | kReceivedGood
  | kReceivedError
  deriving DecidableEq, Repr

open EMessagingState

/-- One linkset (LLPathfindingLinkset): the navigation-relevant properties of
one object or of terrain.  The class itself lives in
llpathfindinglinkset.cpp, outside the embedded translation unit; per the
spec it is keyed by an identifier (UUID, string form) and carries opaque
navigation attributes, with a distinguished terrain entry.  The identifier
and an opaque attribute payload are what the manager code observes. -/
structure LLPathfindingLinkset where
  uuid : String
  isTerrainLinkset : Bool
  attributes : Nat
  deriving DecidableEq, Repr

/-- A LinksetList (LLPathfindingLinksetList): a mapping from identifier to
linkset, keys unique, order irrelevant (spec section 3).  Modelled as an
association list. -/
abbrev LinksetList := List (String × LLPathfindingLinkset)

/-- Insertion in the sense of std::map::insert as used in
LinksetsResponder::sendCallback: the pair is added keyed by the given
identifier; an already present key is left untouched. -/
def LinksetList.insertPair (l : LinksetList) (k : String) (v : LLPathfindingLinkset) :
    LinksetList :=
  if l.any (fun p => p.1 == k) then l else l ++ [(k, v)]

/-- The join-coordinator state of LinksetsResponder (llpathfindingmanager.cpp
lines 608..682).  The C++ object holds the callback as a boost function; here
every invocation of that callback is recorded in callbackLog together with its
two arguments, so "the callback was invoked" is "an entry was appended".  The
two shared pointers are Options, none standing for a null pointer. -/
structure LinksetsResponder where
  objectMessagingState : EMessagingState
  terrainMessagingState : EMessagingState
  objectLinksetList : Option LinksetList
  terrainLinkset : Option LLPathfindingLinkset
  callbackLog : List (ELinksetsRequestStatus × LinksetList)
  deriving DecidableEq, Repr

namespace LinksetsResponder

/-- The LinksetsResponder constructor: each requested sub-operation starts in
kWaiting, an unrequested one in kNotRequested; both result pointers null. -/
def mkResponder (pIsObjectRequested pIsTerrainRequested : Bool) : LinksetsResponder :=
  { objectMessagingState := if pIsObjectRequested then kWaiting else kNotRequested
    terrainMessagingState := if pIsTerrainRequested then kWaiting else kNotRequested
    objectLinksetList := none
    terrainLinkset := none
    callbackLog := [] }

/-- LinksetsResponder::sendCallback (lines 662..682).  Classifies the joined
status, replaces the object list by a fresh empty one unless the object
sub-operation received good data, inserts the terrain linkset keyed by its own
UUID when terrain received good data, and invokes the callback.  In C++ the
terrain pointer is dereferenced there; it is non-null whenever the terrain
state is kReceivedGood (set together in handleTerrainLinksetsResult), so the
none branch of the match is unreachable in any run of the program. -/
def sendCallback (r : LinksetsResponder) : LinksetsResponder :=
  let requestStatus : ELinksetsRequestStatus :=
    if ((r.objectMessagingState = kReceivedGood ∨ r.objectMessagingState = kNotRequested) ∧
        (r.terrainMessagingState = kReceivedGood ∨ r.terrainMessagingState = kNotRequested))
    then kLinksetsRequestCompleted
    else kLinksetsRequestError
  let objectList : Option LinksetList :=
    if r.objectMessagingState ≠ kReceivedGood then some [] else r.objectLinksetList
  let objectList : Option LinksetList :=
    if r.terrainMessagingState = kReceivedGood then
      match objectList, r.terrainLinkset with
      | some l, some t => some (l.insertPair t.uuid t)
      | l, _ => l
    else objectList
  { r with objectLinksetList := objectList
           callbackLog := r.callbackLog ++ [(requestStatus, objectList.getD [])] }

/-- LinksetsResponder::handleObjectLinksetsResult (lines 621..630).  The C++
builds LLPathfindingLinksetList(pContent); that parse lives outside the
embedded translation unit, so the content is modelled as the parsed mapping
itself. -/
def handleObjectLinksetsResult (r : LinksetsResponder) (pContent : LinksetList) :
    LinksetsResponder :=
  let r := { r with objectLinksetList := some pContent
                    objectMessagingState := kReceivedGood }
  if r.terrainMessagingState ≠ kWaiting then r.sendCallback else r

/-- LinksetsResponder::handleObjectLinksetsError (lines 632..640); the status,
reason and URL are only written to the log. -/
def handleObjectLinksetsError (r : LinksetsResponder) : LinksetsResponder :=
  let r := { r with objectMessagingState := kReceivedError }
  if r.terrainMessagingState ≠ kWaiting then r.sendCallback else r

/-- LinksetsResponder::handleTerrainLinksetsResult (lines 642..651); the
content is modelled as the parsed terrain linkset. -/
def handleTerrainLinksetsResult (r : LinksetsResponder) (pContent : LLPathfindingLinkset) :
    LinksetsResponder :=
  let r := { r with terrainLinkset := some pContent
                    terrainMessagingState := kReceivedGood }
  if r.objectMessagingState ≠ kWaiting then r.sendCallback else r

/-- LinksetsResponder::handleTerrainLinksetsError (lines 653..660). -/
def handleTerrainLinksetsError (r : LinksetsResponder) : LinksetsResponder :=
  let r := { r with terrainMessagingState := kReceivedError }
  if r.objectMessagingState ≠ kWaiting then r.sendCallback else r

end LinksetsResponder

/-- A completion event delivered to a LinksetsResponder by the HTTP transport:
ObjectLinksetsResponder / TerrainLinksetsResponder forward result or error of
their call into the corresponding handler exactly once per issued call. -/
inductive LinksetsEvent where
  | objectResult (pContent : LinksetList)
  | objectError
  | terrainResult (pContent : LLPathfindingLinkset)
  | terrainError
  deriving DecidableEq, Repr

/-- Whether an event is a completion of the object sub-operation. -/
def LinksetsEvent.isObjectEvent : LinksetsEvent → Bool
  | .objectResult _ => true
  | .objectError => true
  | .terrainResult _ => false
  | .terrainError => false

/-- Whether an event is a completion of the terrain sub-operation. -/
def LinksetsEvent.isTerrainEvent : LinksetsEvent → Bool
  | .objectResult _ => false
  | .objectError => false
  | .terrainResult _ => true
  | .terrainError => true

/-- Dispatch one completion event into the responder. -/
def LinksetsResponder.step (r : LinksetsResponder) : LinksetsEvent → LinksetsResponder
  | .objectResult c => r.handleObjectLinksetsResult c
  | .objectError => r.handleObjectLinksetsError
  | .terrainResult c => r.handleTerrainLinksetsResult c
  | .terrainError => r.handleTerrainLinksetsError

/-- Process a sequence of completion events in order. -/
def LinksetsResponder.run (r : LinksetsResponder) (es : List LinksetsEvent) :
    LinksetsResponder :=
  es.foldl LinksetsResponder.step r

/-- A complete schedule for a responder constructed with the given requested
sub-operations: the HTTP client invokes result or error exactly once per
issued call, so exactly one object completion arrives when the object
sub-operation was requested (none otherwise), and likewise for terrain; the
interleaving order is arbitrary. -/
def completeSchedule (pIsObjectRequested pIsTerrainRequested : Bool)
    (es : List LinksetsEvent) : Prop :=
  es.countP LinksetsEvent.isObjectEvent = (if pIsObjectRequested then 1 else 0) ∧
  es.countP LinksetsEvent.isTerrainEvent = (if pIsTerrainRequested then 1 else 0)

/-- Every event completes exactly one of the two sub-operations, so the two
counts add up to the schedule length. -/
theorem countP_object_add_countP_terrain (es : List LinksetsEvent) :
    es.countP LinksetsEvent.isObjectEvent + es.countP LinksetsEvent.isTerrainEvent
      = es.length := by
  induction es with
  | nil => rfl
  | cons e tl ih =>
    cases e <;> simp [List.countP_cons, LinksetsEvent.isObjectEvent,
      LinksetsEvent.isTerrainEvent] <;> omega

/-- An LLViewerRegion as this translation unit observes it: a region identity
and the capability lookup getCapability(name), empty string meaning the
capability is absent.  The null LLUUID is modelled as 0. -/
structure Region where
  regionID : Nat
  canManageEstate : Bool
  getCapability : String → String

/-- The collaborators of LLPathfindingManager that are read during the
embedded operations: gAgent.getRegion() and gAgent.isGodlike(). -/
structure Env where
  currentRegion : Option Region
  isGodlike : Bool

/-- CAP_SERVICE_RETRIEVE_NAVMESH. -/
def CAP_SERVICE_RETRIEVE_NAVMESH : String := "RetrieveNavMeshSrc"

/-- CAP_SERVICE_AGENT_STATE. -/
def CAP_SERVICE_AGENT_STATE : String := "AgentPreferences"

/-- CAP_SERVICE_OBJECT_LINKSETS. -/
def CAP_SERVICE_OBJECT_LINKSETS : String := "ObjectNavMeshProperties"

/-- CAP_SERVICE_TERRAIN_LINKSETS. -/
def CAP_SERVICE_TERRAIN_LINKSETS : String := "TerrainNavMeshProperties"

/-- LLPathfindingManager::getCapabilityURLForRegion (lines 520..536): empty
string for a null region or an absent capability (the warning is only
logged). -/
def getCapabilityURLForRegion (pRegion : Option Region) (pCapabilityName : String) :
    String :=
  match pRegion with
  | none => ""
  | some r => r.getCapability pCapabilityName

/-- LLPathfindingManager::getCapabilityURLForCurrentRegion (lines 515..518). -/
def getCapabilityURLForCurrentRegion (env : Env) (pCapabilityName : String) : String :=
  getCapabilityURLForRegion env.currentRegion pCapabilityName

/-- LLPathfindingManager::getRetrieveNavMeshURLForCurrentRegion. -/
def getRetrieveNavMeshURLForCurrentRegion (env : Env) : String :=
  getCapabilityURLForCurrentRegion env CAP_SERVICE_RETRIEVE_NAVMESH

/-- LLPathfindingManager::getRetrieveNavMeshURLForRegion. -/
def getRetrieveNavMeshURLForRegion (pRegion : Option Region) : String :=
  getCapabilityURLForRegion pRegion CAP_SERVICE_RETRIEVE_NAVMESH

/-- LLPathfindingManager::getAgentStateURLForCurrentRegion. -/
def getAgentStateURLForCurrentRegion (env : Env) : String :=
  getCapabilityURLForCurrentRegion env CAP_SERVICE_AGENT_STATE

/-- LLPathfindingManager::getObjectLinksetsURLForCurrentRegion. -/
def getObjectLinksetsURLForCurrentRegion (env : Env) : String :=
  getCapabilityURLForCurrentRegion env CAP_SERVICE_OBJECT_LINKSETS

/-- LLPathfindingManager::getTerrainLinksetsURLForCurrentRegion. -/
def getTerrainLinksetsURLForCurrentRegion (env : Env) : String :=
  getCapabilityURLForCurrentRegion env CAP_SERVICE_TERRAIN_LINKSETS

/-- LLPathfindingManager::isPathfindingEnabledForCurrentRegion (lines
207..211). -/
def isPathfindingEnabledForCurrentRegion (env : Env) : Bool :=
  !(getRetrieveNavMeshURLForCurrentRegion env).isEmpty

/-- LLPathfindingManager::isAllowViewTerrainProperties (lines 218..222). -/
def isAllowViewTerrainProperties (env : Env) : Bool :=
  env.isGodlike ||
    (match env.currentRegion with
     | some r => r.canManageEstate
     | none => false)

/-- One asynchronous HTTP operation dispatched through LLHTTPClient, as issued
by the embedded code; issuing a call appends one of these to the request log.
The agent-state POST records the boolean written into both the primary and
the deprecated request field and the requested target the responder was
tagged with. -/
inductive HttpRequest where
  | navMeshPost (url : String) (navMeshVersion : Nat)
  | agentStateGet (url : String)
  | agentStatePost (url : String) (alterNavmeshObjects alterPermanentObjects : Bool)
      (requestedAgentState : EAgentState)
  | objectLinksetsGet (url : String)
  | terrainLinksetsGet (url : String)
  | objectLinksetsPut (url : String)
  | terrainLinksetsPut (url : String)
  deriving DecidableEq, Repr

/-- The navmesh request lifecycle states of a cache entry.
Modelled from the spec: llpathfindingnavmesh.cpp is not part of the embedded
sources; spec section 4.1 gives the states NoData, RequestStarted,
RequestCompleted plus the terminal side branches NotEnabled and Error. -/
inductive ENavMeshRequestStatus where
  | kNavMeshRequestNoData
  | kNavMeshRequestStarted
  | kNavMeshRequestCompleted
  | kNavMeshRequestNotEnabled
  | kNavMeshRequestError
  deriving DecidableEq, Repr

open ENavMeshRequestStatus

/-- A navmesh cache entry (LLPathfindingNavMesh).
Modelled from the spec: llpathfindingnavmesh.cpp is not part of the embedded
sources; per spec section 3 the entry holds its RegionId, current lifecycle
state, last known version and registered listeners.  Notifying the listeners
is recorded by appending the announced status and version to listenerLog. -/
structure LLPathfindingNavMesh where
  regionUUID : Nat
  navMeshRequestStatus : ENavMeshRequestStatus
  navMeshVersion : Nat
  navMeshData : Option Nat
  listenerLog : List (ENavMeshRequestStatus × Nat)
  deriving DecidableEq, Repr

namespace LLPathfindingNavMesh

/-- A freshly constructed cache entry for a region: no data yet.
Modelled from the spec: entries are created lazily on first reference, in the
initial NoData state. -/
def mkNavMesh (pRegionUUID : Nat) : LLPathfindingNavMesh :=
  { regionUUID := pRegionUUID
    navMeshRequestStatus := kNavMeshRequestNoData
    navMeshVersion := 0
    navMeshData := none
    listenerLog := [] }

/-- LLPathfindingNavMesh::hasNavMeshVersion.
Modelled from the spec: the "has current data" predicate holds only when the
stored version equals the latest known version (spec section 3 invariant),
i.e. when the entry holds completed data for exactly that version. -/
def hasNavMeshVersion (e : LLPathfindingNavMesh) (pNavMeshVersion : Nat) : Bool :=
  e.navMeshVersion == pNavMeshVersion &&
    e.navMeshRequestStatus == kNavMeshRequestCompleted

/-- LLPathfindingNavMesh::handleRefresh.
Modelled from the spec: re-announce the current data to the listeners without
a network call (spec section 4.1). -/
def handleRefresh (e : LLPathfindingNavMesh) : LLPathfindingNavMesh :=
  { e with listenerLog := e.listenerLog ++ [(e.navMeshRequestStatus, e.navMeshVersion)] }

/-- LLPathfindingNavMesh::handleNavMeshStart.
Modelled from the spec: enter RequestStarted, record the requested version,
notify the listeners that a fetch is in progress (spec section 4.1). -/
def handleNavMeshStart (e : LLPathfindingNavMesh) (pNavMeshVersion : Nat) :
    LLPathfindingNavMesh :=
  { e with navMeshRequestStatus := kNavMeshRequestStarted
           navMeshVersion := pNavMeshVersion
           listenerLog := e.listenerLog ++ [(kNavMeshRequestStarted, pNavMeshVersion)] }

/-- LLPathfindingNavMesh::handleNavMeshNotEnabled.
Modelled from the spec: transition to NotEnabled and notify the listeners
(spec section 4.1). -/
def handleNavMeshNotEnabled (e : LLPathfindingNavMesh) : LLPathfindingNavMesh :=
  { e with navMeshRequestStatus := kNavMeshRequestNotEnabled
           listenerLog := e.listenerLog ++ [(kNavMeshRequestNotEnabled, e.navMeshVersion)] }

/-- LLPathfindingNavMesh::handleNavMeshNewVersion.
Modelled from the spec: the signal records the new latest version and
invalidates the entry without triggering a refetch (spec section 4.1): when
the version differs from the stored one the held data is dropped and the
entry returns to NoData at the new version. -/
def handleNavMeshNewVersion (e : LLPathfindingNavMesh) (pNavMeshVersion : Nat) :
    LLPathfindingNavMesh :=
  if e.navMeshVersion ≠ pNavMeshVersion then
    { e with navMeshRequestStatus := kNavMeshRequestNoData
             navMeshVersion := pNavMeshVersion
             navMeshData := none }
  else e

end LLPathfindingNavMesh

/-- The mutable state of the LLPathfindingManager singleton that the embedded
operations touch (constructor, lines 193..201): the region-to-entry map, the
process-global navmesh version counter mNavMeshVersionXXX (a U32, so counted
modulo 2 ^ 32), the agent state, the last known non-error agent state, and
logs recording agent-state listener broadcasts and issued HTTP operations. -/
structure ManagerState where
  navMeshMap : List (Nat × LLPathfindingNavMesh)
  navMeshVersionXXX : Nat
  agentState : EAgentState
  lastKnownNonErrorAgentState : EAgentState
  agentStateSignalLog : List EAgentState
  httpLog : List HttpRequest
  deriving DecidableEq, Repr

/-- The state built by the LLPathfindingManager constructor. -/
def initialManagerState : ManagerState :=
  { navMeshMap := []
    navMeshVersionXXX := 0
    agentState := kAgentStateUnknown
    lastKnownNonErrorAgentState := kAgentStateUnknown
    agentStateSignalLog := []
    httpLog := [] }

/-- Look up the cache entry for a region UUID in mNavMeshMap. -/
def findNavMesh (st : ManagerState) (pRegionUUID : Nat) : Option LLPathfindingNavMesh :=
  (st.navMeshMap.find? (fun p => p.1 == pRegionUUID)).map Prod.snd

/-- Write back a cache entry under its region UUID; the C++ mutates the entry
through a shared pointer held in the map, which this models. -/
def setNavMesh (st : ManagerState) (pRegionUUID : Nat) (e : LLPathfindingNavMesh) :
    ManagerState :=
  { st with navMeshMap :=
      st.navMeshMap.map (fun p => if p.1 == pRegionUUID then (p.1, e) else p) }

/-- LLPathfindingManager::getNavMeshForRegion(const LLUUID &) (lines
394..409): return the entry for the UUID, creating and inserting a fresh one
on first reference. -/
def getNavMeshForRegionUUID (st : ManagerState) (pRegionUUID : Nat) :
    LLPathfindingNavMesh × ManagerState :=
  match st.navMeshMap.find? (fun p => p.1 == pRegionUUID) with
  | some p => (p.2, st)
  | none =>
      let e := LLPathfindingNavMesh.mkNavMesh pRegionUUID
      (e, { st with navMeshMap := st.navMeshMap ++ [(pRegionUUID, e)] })

/-- LLPathfindingManager::getNavMeshForRegion(LLViewerRegion*) (lines
411..420): a null region is mapped to the null UUID. -/
def getNavMeshForRegion (st : ManagerState) (pRegion : Option Region) :
    LLPathfindingNavMesh × ManagerState :=
  getNavMeshForRegionUUID st
    (match pRegion with
     | none => 0
     | some r => r.regionID)

/-- LLPathfindingManager::requestGetNavMeshForRegion (lines 230..261). -/
def requestGetNavMeshForRegion (st : ManagerState) (pRegion : Option Region) :
    ManagerState :=
  let nm := getNavMeshForRegion st pRegion
  let navMesh := nm.1
  let st := nm.2
  if navMesh.hasNavMeshVersion st.navMeshVersionXXX then
    setNavMesh st navMesh.regionUUID navMesh.handleRefresh
  else
    match pRegion with
    | none => setNavMesh st navMesh.regionUUID navMesh.handleNavMeshNotEnabled
    | some region =>
        let navMeshURL := getRetrieveNavMeshURLForRegion (some region)
        if navMeshURL.isEmpty then
          setNavMesh st navMesh.regionUUID navMesh.handleNavMeshNotEnabled
        else
          let st := setNavMesh st navMesh.regionUUID
            (navMesh.handleNavMeshStart st.navMeshVersionXXX)
          { st with httpLog :=
              st.httpLog ++ [HttpRequest.navMeshPost navMeshURL st.navMeshVersionXXX] }

/-- LLPathfindingManager::handleNavMeshUpdate (lines 263..267): fetch (or
lazily create) the entry for the notified region, pre-increment the U32
counter mNavMeshVersionXXX, and hand the new counter value to the entry; the
version supplied by the simulator is ignored. -/
def handleNavMeshUpdate (st : ManagerState) (pRegionUUID : Nat)
    (pNavMeshVersion : Nat) : ManagerState :=
  let nm := getNavMeshForRegionUUID st pRegionUUID
  let navMesh := nm.1
  let st := nm.2
  let st := { st with navMeshVersionXXX := (st.navMeshVersionXXX + 1) % 4294967296 }
  setNavMesh st pRegionUUID (navMesh.handleNavMeshNewVersion st.navMeshVersionXXX)

/-- LLPathfindingManager::isValidAgentState (lines 422..425). -/
def isValidAgentState (pAgentState : EAgentState) : Bool :=
  pAgentState == kAgentStateFrozen || pAgentState == kAgentStateUnfrozen

/-- LLPathfindingManager::setAgentState (lines 442..452): store the state,
track it as the last known non-error state unless it is the error state, and
broadcast it on mAgentStateSignal (recorded in the signal log). -/
def setAgentState (st : ManagerState) (pAgentState : EAgentState) : ManagerState :=
  let st := { st with agentState := pAgentState }
  let st :=
    if st.agentState ≠ kAgentStateError then
      { st with lastKnownNonErrorAgentState := st.agentState }
    else st
  { st with agentStateSignalLog := st.agentStateSignalLog ++ [st.agentState] }

/-- LLPathfindingManager::getLastKnownNonErrorAgentState (lines 291..294). -/
def getLastKnownNonErrorAgentState (st : ManagerState) : EAgentState :=
  st.lastKnownNonErrorAgentState

/-- LLPathfindingManager::requestGetAgentState (lines 427..440): with no
agent-state capability resolve immediately to NotEnabled, otherwise issue the
asynchronous GET. -/
def requestGetAgentState (env : Env) (st : ManagerState) : ManagerState :=
  let agentStateURL := getAgentStateURLForCurrentRegion env
  if agentStateURL.isEmpty then
    setAgentState st kAgentStateNotEnabled
  else
    { st with httpLog := st.httpLog ++ [HttpRequest.agentStateGet agentStateURL] }

/-- LLPathfindingManager::getAgentState (lines 274..289): returns the value of
mAgentState after the side effects, paired here with the updated state. -/
def getAgentState (env : Env) (st : ManagerState) : ManagerState × EAgentState :=
  let st :=
    if !(isPathfindingEnabledForCurrentRegion env) then
      setAgentState st kAgentStateNotEnabled
    else
      if !(isValidAgentState st.agentState) then
        requestGetAgentState env st
      else st
  (st, st.agentState)

/-- LLPathfindingManager::requestSetAgentState (lines 296..316): the caller
must pass a valid target (llassert); with no capability resolve immediately
to NotEnabled, otherwise POST a body carrying the boolean
(target == kAgentStateUnfrozen) in the primary field and — because
DEPRECATED_ALTER_NAVMESH_OBJECTS_FIELD is defined — the same boolean in the
deprecated field, with the responder tagged by the requested target. -/
def requestSetAgentState (env : Env) (st : ManagerState)
    (pRequestedAgentState : EAgentState) : ManagerState :=
  let agentStateURL := getAgentStateURLForCurrentRegion env
  if agentStateURL.isEmpty then
    setAgentState st kAgentStateNotEnabled
  else
    { st with httpLog := st.httpLog ++
        [HttpRequest.agentStatePost agentStateURL
          (pRequestedAgentState == kAgentStateUnfrozen)
          (pRequestedAgentState == kAgentStateUnfrozen)
          pRequestedAgentState] }

/-- The LLSD body of an agent-state response as read by
handleAgentStateResult: the two boolean fields, none when the field is absent
(undefined LLSD). -/
structure LLSDAgentStateContent where
  alterNavmeshObjects : Option Bool
  alterPermanentObjects : Option Bool
  deriving DecidableEq, Repr

/-- The decoding of the agent state from a response body inside
LLPathfindingManager::handleAgentStateResult (lines 460..472, the branch
compiled because DEPRECATED_ALTER_NAVMESH_OBJECTS_FIELD is defined): read the
primary field if present, else the deprecated field; with both absent the C++
calls asBoolean() on an undefined LLSD, which yields false and hence Frozen
(the preceding llasserts flag that case in debug builds). -/
def decodeAgentStateContent (pContent : LLSDAgentStateContent) : EAgentState :=
  match pContent.alterNavmeshObjects with
  | some b => if b then kAgentStateUnfrozen else kAgentStateFrozen
  | none =>
      match pContent.alterPermanentObjects with
      | some b => if b then kAgentStateUnfrozen else kAgentStateFrozen
      | none => kAgentStateFrozen

/-- LLPathfindingManager::handleAgentStateResult (lines 454..482): decode the
state from the body; if the request was a set (valid requested state) and the
decoded state disagrees with it, escalate to the error state (llassert(0));
then setAgentState. -/
def handleAgentStateResult (st : ManagerState) (pContent : LLSDAgentStateContent)
    (pRequestedAgentState : EAgentState) : ManagerState :=
  let agentState := decodeAgentStateContent pContent
  let agentState :=
    if isValidAgentState pRequestedAgentState ∧ agentState ≠ pRequestedAgentState then
      kAgentStateError
    else agentState
  setAgentState st agentState

/-- LLPathfindingManager::handleAgentStateError (lines 484..488). -/
def handleAgentStateError (st : ManagerState) : ManagerState :=
  setAgentState st kAgentStateError

/-- C1 counterexample: a LinksetsResponder constructed with the empty subset
of sub-operations requested — pIsObjectRequested and pIsTerrainRequested both
false, as the constructor signature admits — receives a terminal completion
for every requested sub-operation vacuously (the empty schedule is complete
for it), yet the joined callback is invoked zero times, not exactly once:
no handler ever runs, and sendCallback is only reached from the handlers. -/
theorem C1_counterexample :
    completeSchedule false false [] ∧
    ((LinksetsResponder.mkResponder false false).run []).callbackLog.length = 0 := by
  constructor
  · exact ⟨rfl, rfl⟩
  · rfl

/-- C1 (amended): for every LinksetsResponder constructed with a nonempty
subset of object and terrain requested, and every complete schedule of
completions (exactly one terminal completion per requested sub-operation, in
either relative order), the joined callback is invoked exactly once, and it
has not been invoked after any proper prefix of the schedule, i.e. never
while a requested sub-operation is still pending. -/
theorem C1_callback_exactly_once (pIsObjectRequested pIsTerrainRequested : Bool)
    (hreq : pIsObjectRequested = true ∨ pIsTerrainRequested = true)
    (es : List LinksetsEvent)
    (hsched : completeSchedule pIsObjectRequested pIsTerrainRequested es) :
    ((LinksetsResponder.mkResponder pIsObjectRequested pIsTerrainRequested).run
        es).callbackLog.length = 1 ∧
    ∀ n, n < es.length →
      ((LinksetsResponder.mkResponder pIsObjectRequested pIsTerrainRequested).run
          (es.take n)).callbackLog = [] := by
  obtain ⟨hobjc, hterrc⟩ := hsched
  have hlen := countP_object_add_countP_terrain es
  rw [hobjc, hterrc] at hlen
  cases pIsObjectRequested <;> cases pIsTerrainRequested
  · simp at hreq
  · norm_num at hlen
    obtain ⟨a, rfl⟩ := List.length_eq_one.mp hlen.symm
    cases a <;>
      try simp [List.countP_cons, LinksetsEvent.isObjectEvent,
        LinksetsEvent.isTerrainEvent] at hobjc hterrc
    all_goals
      refine ⟨?_, ?_⟩
      · simp [LinksetsResponder.run, LinksetsResponder.step, LinksetsResponder.mkResponder,
          LinksetsResponder.handleTerrainLinksetsResult,
          LinksetsResponder.handleTerrainLinksetsError, LinksetsResponder.sendCallback]
      · intro n hn
        have hn0 : n = 0 := by simpa using hn
        subst hn0
        simp [LinksetsResponder.run, LinksetsResponder.mkResponder]
  · norm_num at hlen
    obtain ⟨a, rfl⟩ := List.length_eq_one.mp hlen.symm
    cases a <;>
      try simp [List.countP_cons, LinksetsEvent.isObjectEvent,
        LinksetsEvent.isTerrainEvent] at hobjc hterrc
    all_goals
      refine ⟨?_, ?_⟩
      · simp [LinksetsResponder.run, LinksetsResponder.step, LinksetsResponder.mkResponder,
          LinksetsResponder.handleObjectLinksetsResult,
          LinksetsResponder.handleObjectLinksetsError, LinksetsResponder.sendCallback]
      · intro n hn
        have hn0 : n = 0 := by simpa using hn
        subst hn0
        simp [LinksetsResponder.run, LinksetsResponder.mkResponder]
  · norm_num at hlen
    obtain ⟨a, b, rfl⟩ := List.length_eq_two.mp hlen.symm
    cases a <;> cases b <;>
      try simp [List.countP_cons, LinksetsEvent.isObjectEvent,
        LinksetsEvent.isTerrainEvent] at hobjc hterrc
    all_goals
      refine ⟨?_, ?_⟩
      · simp [LinksetsResponder.run, LinksetsResponder.step, LinksetsResponder.mkResponder,
          LinksetsResponder.handleObjectLinksetsResult,
          LinksetsResponder.handleObjectLinksetsError,
          LinksetsResponder.handleTerrainLinksetsResult,
          LinksetsResponder.handleTerrainLinksetsError, LinksetsResponder.sendCallback]
      · intro n hn
        simp only [List.length_cons, List.length_nil] at hn
        interval_cases n <;>
          simp [LinksetsResponder.run, LinksetsResponder.step, LinksetsResponder.mkResponder,
            LinksetsResponder.handleObjectLinksetsResult,
            LinksetsResponder.handleObjectLinksetsError,
            LinksetsResponder.handleTerrainLinksetsResult,
            LinksetsResponder.handleTerrainLinksetsError, LinksetsResponder.sendCallback]

/-- C1 witness: the amended theorem applied to the both-requested coordinator
with the schedule object result first, terrain error second: the callback
fires exactly once and had not fired after the first completion alone. -/
theorem C1_callback_exactly_once_witness :
    ((LinksetsResponder.mkResponder true true).run
        [LinksetsEvent.objectResult [], LinksetsEvent.terrainError]).callbackLog.length = 1 ∧
    ((LinksetsResponder.mkResponder true true).run
        (List.take 1
          [LinksetsEvent.objectResult [], LinksetsEvent.terrainError])).callbackLog = [] := by
  refine ⟨(C1_callback_exactly_once true true (Or.inl rfl)
      [LinksetsEvent.objectResult [], LinksetsEvent.terrainError] ⟨rfl, rfl⟩).1,
    (C1_callback_exactly_once true true (Or.inl rfl)
      [LinksetsEvent.objectResult [], LinksetsEvent.terrainError] ⟨rfl, rfl⟩).2 1 (by decide)⟩

/-- C2: for every responder whose two sub-operations have reached final
states (neither still kWaiting), the status passed to the joined callback by
sendCallback is kLinksetsRequestCompleted if and only if each sub-operation
ended kReceivedGood or kNotRequested, and in every other combination the
status passed is kLinksetsRequestError. -/
theorem C2_sendCallback_status (r : LinksetsResponder)
    (hobj : r.objectMessagingState ≠ kWaiting)
    (hterr : r.terrainMessagingState ≠ kWaiting) :
    ((r.sendCallback.callbackLog.getLast?.map Prod.fst = some kLinksetsRequestCompleted) ↔
      ((r.objectMessagingState = kReceivedGood ∨ r.objectMessagingState = kNotRequested) ∧
       (r.terrainMessagingState = kReceivedGood ∨ r.terrainMessagingState = kNotRequested))) ∧
    (r.sendCallback.callbackLog.getLast?.map Prod.fst = some kLinksetsRequestCompleted ∨
     r.sendCallback.callbackLog.getLast?.map Prod.fst = some kLinksetsRequestError) := by
  have hlast : r.sendCallback.callbackLog.getLast?.map Prod.fst =
      some (if ((r.objectMessagingState = kReceivedGood ∨
                 r.objectMessagingState = kNotRequested) ∧
                (r.terrainMessagingState = kReceivedGood ∨
                 r.terrainMessagingState = kNotRequested))
            then kLinksetsRequestCompleted else kLinksetsRequestError) := by
    simp [LinksetsResponder.sendCallback]
  rw [hlast]
  by_cases h : ((r.objectMessagingState = kReceivedGood ∨
      r.objectMessagingState = kNotRequested) ∧
      (r.terrainMessagingState = kReceivedGood ∨
       r.terrainMessagingState = kNotRequested))
  · simp [h]
  · simp [h]

/-- A concrete responder state with the object sub-operation good and the
terrain sub-operation failed, the partial object data already stored. -/
def partialFailureResponder : LinksetsResponder :=
  { objectMessagingState := kReceivedGood
    terrainMessagingState := kReceivedError
    objectLinksetList := some [("obj1", ⟨"obj1", false, 1⟩)]
    terrainLinkset := none
    callbackLog := [] }

/-- C2 witness: the status classification applied to the concrete
object-good, terrain-error responder. -/
theorem C2_sendCallback_status_witness :
    ((partialFailureResponder.sendCallback.callbackLog.getLast?.map Prod.fst =
        some kLinksetsRequestCompleted) ↔
      ((partialFailureResponder.objectMessagingState = kReceivedGood ∨
        partialFailureResponder.objectMessagingState = kNotRequested) ∧
       (partialFailureResponder.terrainMessagingState = kReceivedGood ∨
        partialFailureResponder.terrainMessagingState = kNotRequested))) ∧
    (partialFailureResponder.sendCallback.callbackLog.getLast?.map Prod.fst =
        some kLinksetsRequestCompleted ∨
     partialFailureResponder.sendCallback.callbackLog.getLast?.map Prod.fst =
        some kLinksetsRequestError) :=
  C2_sendCallback_status partialFailureResponder (by decide) (by decide)

/-- C3: in a join with both sub-operations requested, when the object fetch
succeeds with content c and the terrain fetch fails — in either completion
order — the callback is invoked exactly once with status
kLinksetsRequestError and exactly the object results c (terrain omitted); and
whenever the terrain fetch succeeds with linkset t, t is inserted into the
object LinksetList keyed by its own identifier before the merged list is
handed to the callback, whether the object fetch succeeded, failed, or was
not requested. -/
theorem C3_partial_failure_and_merge (c : LinksetList) (t : LLPathfindingLinkset) :
    (∀ es, (es = [LinksetsEvent.objectResult c, LinksetsEvent.terrainError] ∨
            es = [LinksetsEvent.terrainError, LinksetsEvent.objectResult c]) →
      ((LinksetsResponder.mkResponder true true).run es).callbackLog
        = [(kLinksetsRequestError, c)]) ∧
    (∀ es, (es = [LinksetsEvent.objectResult c, LinksetsEvent.terrainResult t] ∨
            es = [LinksetsEvent.terrainResult t, LinksetsEvent.objectResult c]) →
      ((LinksetsResponder.mkResponder true true).run es).callbackLog
        = [(kLinksetsRequestCompleted, c.insertPair t.uuid t)]) ∧
    (∀ es, (es = [LinksetsEvent.objectError, LinksetsEvent.terrainResult t] ∨
            es = [LinksetsEvent.terrainResult t, LinksetsEvent.objectError]) →
      ((LinksetsResponder.mkResponder true true).run es).callbackLog
        = [(kLinksetsRequestError, LinksetList.insertPair [] t.uuid t)]) ∧
    ((LinksetsResponder.mkResponder false true).run
        [LinksetsEvent.terrainResult t]).callbackLog
      = [(kLinksetsRequestCompleted, LinksetList.insertPair [] t.uuid t)] := by
  refine ⟨?_, ?_, ?_, ?_⟩
  · intro es hes
    rcases hes with rfl | rfl <;>
      simp [LinksetsResponder.run, LinksetsResponder.step, LinksetsResponder.mkResponder,
        LinksetsResponder.handleObjectLinksetsResult,
        LinksetsResponder.handleTerrainLinksetsError, LinksetsResponder.sendCallback]
  · intro es hes
    rcases hes with rfl | rfl <;>
      simp [LinksetsResponder.run, LinksetsResponder.step, LinksetsResponder.mkResponder,
        LinksetsResponder.handleObjectLinksetsResult,
        LinksetsResponder.handleTerrainLinksetsResult, LinksetsResponder.sendCallback]
  · intro es hes
    rcases hes with rfl | rfl <;>
      simp [LinksetsResponder.run, LinksetsResponder.step, LinksetsResponder.mkResponder,
        LinksetsResponder.handleObjectLinksetsError,
        LinksetsResponder.handleTerrainLinksetsResult, LinksetsResponder.sendCallback]
  · simp [LinksetsResponder.run, LinksetsResponder.step, LinksetsResponder.mkResponder,
      LinksetsResponder.handleTerrainLinksetsResult, LinksetsResponder.sendCallback]

/-- C3 witness: the spec example scenario — object GET succeeds with the
single entry obj1, terrain GET fails — delivers one callback with status
kLinksetsRequestError and a list containing only obj1. -/
theorem C3_partial_failure_and_merge_witness :
    ((LinksetsResponder.mkResponder true true).run
        [LinksetsEvent.objectResult [("obj1", ⟨"obj1", false, 1⟩)],
         LinksetsEvent.terrainError]).callbackLog
      = [(kLinksetsRequestError, [("obj1", ⟨"obj1", false, 1⟩)])] :=
  (C3_partial_failure_and_merge [("obj1", ⟨"obj1", false, 1⟩)] ⟨"terrain", true, 2⟩).1
    _ (Or.inl rfl)

/-- The encoded LLSD body of a linksets PUT: the targeted entries together
with the use category and the four pass-through tuning parameters.
Modelled from the spec: the wire payload carries a use-category enum plus
four integer parameters A, B, C, D per targeted linkset (spec section 6). -/
structure LinksetFieldsBody where
  targets : LinksetList
  linksetUse : Nat
  pA : Int
  pB : Int
  pC : Int
  pD : Int
  deriving DecidableEq, Repr

/-- LLPathfindingLinksetList::encodeObjectFields.
Modelled from the spec: llpathfindinglinksetlist.cpp is not part of the
embedded sources; the method builds the LLSD update body for the non-terrain
members of the list, and when the list holds no such member nothing is ever
assigned into the LLSD, which therefore stays undefined — modelled as none. -/
def encodeObjectFields (l : LinksetList) (pLinksetUse : Nat)
    (pA pB pC pD : Int) : Option LinksetFieldsBody :=
  let objectTargets := l.filter (fun p => !p.2.isTerrainLinkset)
  if objectTargets.isEmpty then none
  else some ⟨objectTargets, pLinksetUse, pA, pB, pC, pD⟩

/-- LLPathfindingLinksetList::encodeTerrainFields.
Modelled from the spec: the terrain counterpart of encodeObjectFields, built
from the distinguished terrain entry of the list; undefined (none) when the
list holds no terrain entry. -/
def encodeTerrainFields (l : LinksetList) (pLinksetUse : Nat)
    (pA pB pC pD : Int) : Option LinksetFieldsBody :=
  let terrainTargets := l.filter (fun p => p.2.isTerrainLinkset)
  if terrainTargets.isEmpty then none
  else some ⟨terrainTargets, pLinksetUse, pA, pB, pC, pD⟩

/-- The synchronous outcome of a linksets request entry point: the returned
status, the join coordinator created for it (none when no request was
issued), and the HTTP operations dispatched during the call. -/
structure LinksetsRequestOutcome where
  status : ELinksetsRequestStatus
  responder : Option LinksetsResponder
  requests : List HttpRequest
  deriving DecidableEq, Repr

/-- LLPathfindingManager::requestGetLinksets (lines 318..346): with either
capability URL empty the call resolves synchronously to
kLinksetsRequestNotEnabled, issuing nothing; otherwise a LinksetsResponder is
constructed with the object sub-operation always requested and the terrain
sub-operation requested exactly when the caller may view terrain properties,
the one or two GETs are dispatched, and kLinksetsRequestStarted is
returned.  The callback is handed to the responder; at return it has never
been invoked (the fresh responder log is empty). -/
def requestGetLinksets (env : Env) : LinksetsRequestOutcome :=
  let objectLinksetsURL := getObjectLinksetsURLForCurrentRegion env
  let terrainLinksetsURL := getTerrainLinksetsURLForCurrentRegion env
  if objectLinksetsURL.isEmpty || terrainLinksetsURL.isEmpty then
    { status := kLinksetsRequestNotEnabled, responder := none, requests := [] }
  else
    let doRequestTerrain := isAllowViewTerrainProperties env
    { status := kLinksetsRequestStarted
      responder := some (LinksetsResponder.mkResponder true doRequestTerrain)
      requests := [HttpRequest.objectLinksetsGet objectLinksetsURL] ++
        (if doRequestTerrain then [HttpRequest.terrainLinksetsGet terrainLinksetsURL]
         else []) }

/-- LLPathfindingManager::requestSetLinksets (lines 348..392): with either
capability URL empty the call resolves synchronously to
kLinksetsRequestNotEnabled; otherwise the object body is encoded from the
list, the terrain body is encoded only when the caller may alter terrain
properties (otherwise it stays the undefined LLSD); with both bodies
undefined the call resolves synchronously to kLinksetsRequestCompleted
without creating a responder or issuing anything; otherwise a responder is
constructed with exactly the sub-operations whose body is defined, the PUTs
are dispatched, and kLinksetsRequestStarted is returned. -/
def requestSetLinksets (env : Env) (pLinksetList : LinksetList) (pLinksetUse : Nat)
    (pA pB pC pD : Int) : LinksetsRequestOutcome :=
  let objectLinksetsURL := getObjectLinksetsURLForCurrentRegion env
  let terrainLinksetsURL := getTerrainLinksetsURLForCurrentRegion env
  if objectLinksetsURL.isEmpty || terrainLinksetsURL.isEmpty then
    { status := kLinksetsRequestNotEnabled, responder := none, requests := [] }
  else
    let objectPostData := encodeObjectFields pLinksetList pLinksetUse pA pB pC pD
    let terrainPostData :=
      if isAllowViewTerrainProperties env then
        encodeTerrainFields pLinksetList pLinksetUse pA pB pC pD
      else none
    if objectPostData.isNone && terrainPostData.isNone then
      { status := kLinksetsRequestCompleted, responder := none, requests := [] }
    else
      { status := kLinksetsRequestStarted
        responder := some (LinksetsResponder.mkResponder objectPostData.isSome
          terrainPostData.isSome)
        requests :=
          (if objectPostData.isSome then
            [HttpRequest.objectLinksetsPut objectLinksetsURL] else []) ++
          (if terrainPostData.isSome then
            [HttpRequest.terrainLinksetsPut terrainLinksetsURL] else []) }

/-- A region exposing all four pathfinding capabilities. -/
def fullCapabilityRegion : Region :=
  { regionID := 7
    canManageEstate := true
    getCapability := fun name =>
      if name == CAP_SERVICE_RETRIEVE_NAVMESH then "navmesh-url"
      else if name == CAP_SERVICE_AGENT_STATE then "agent-state-url"
      else if name == CAP_SERVICE_OBJECT_LINKSETS then "object-linksets-url"
      else if name == CAP_SERVICE_TERRAIN_LINKSETS then "terrain-linksets-url"
      else "" }

/-- An environment whose current region has every capability and estate
powers. -/
def fullCapabilityEnv : Env :=
  { currentRegion := some fullCapabilityRegion, isGodlike := false }

/-- C7 counterexample: with both linkset capabilities present, a set request
over the empty linkset list encodes no object body and no terrain body, and
requestSetLinksets returns kLinksetsRequestCompleted synchronously — a
status that is neither kLinksetsRequestNotEnabled nor
kLinksetsRequestStarted, with no request issued and no callback ever
invoked. -/
theorem C7_counterexample :
    (requestSetLinksets fullCapabilityEnv [] 0 0 0 0 0).status
        = kLinksetsRequestCompleted ∧
    kLinksetsRequestCompleted ≠ kLinksetsRequestNotEnabled ∧
    kLinksetsRequestCompleted ≠ kLinksetsRequestStarted := by
  decide

/-- C7 (amended): requestGetLinksets returns synchronously with status
kLinksetsRequestNotEnabled or kLinksetsRequestStarted; requestSetLinksets
returns synchronously with kLinksetsRequestNotEnabled,
kLinksetsRequestStarted or kLinksetsRequestCompleted, the latter exactly
when both capabilities are present but nothing was encoded to send; and in
every case no callback has been invoked at return time (any responder
created by the call has an empty callback log). -/
theorem C7_synchronous_status (env : Env) (l : LinksetList) (u : Nat)
    (pA pB pC pD : Int) :
    ((requestGetLinksets env).status = kLinksetsRequestNotEnabled ∨
     (requestGetLinksets env).status = kLinksetsRequestStarted) ∧
    (∀ r, (requestGetLinksets env).responder = some r → r.callbackLog = []) ∧
    ((requestSetLinksets env l u pA pB pC pD).status = kLinksetsRequestNotEnabled ∨
     (requestSetLinksets env l u pA pB pC pD).status = kLinksetsRequestStarted ∨
     (requestSetLinksets env l u pA pB pC pD).status = kLinksetsRequestCompleted) ∧
    ((requestSetLinksets env l u pA pB pC pD).status = kLinksetsRequestCompleted ↔
      ((getObjectLinksetsURLForCurrentRegion env).isEmpty = false ∧
       (getTerrainLinksetsURLForCurrentRegion env).isEmpty = false ∧
       (encodeObjectFields l u pA pB pC pD).isNone = true ∧
       (if isAllowViewTerrainProperties env then
          encodeTerrainFields l u pA pB pC pD
        else none).isNone = true)) ∧
    (∀ r, (requestSetLinksets env l u pA pB pC pD).responder = some r →
      r.callbackLog = []) := by
  by_cases h1 : (getObjectLinksetsURLForCurrentRegion env).isEmpty <;>
    by_cases h2 : (getTerrainLinksetsURLForCurrentRegion env).isEmpty
  · refine ⟨?_, ?_, ?_, ?_, ?_⟩ <;>
      simp [requestGetLinksets, requestSetLinksets, h1, h2]
  · refine ⟨?_, ?_, ?_, ?_, ?_⟩ <;>
      simp [requestGetLinksets, requestSetLinksets, h1, h2]
  · refine ⟨?_, ?_, ?_, ?_, ?_⟩ <;>
      simp [requestGetLinksets, requestSetLinksets, h1, h2]
  · rcases ho : encodeObjectFields l u pA pB pC pD with _ | ob <;>
      rcases ht : (if isAllowViewTerrainProperties env then
          encodeTerrainFields l u pA pB pC pD
        else none) with _ | tb <;>
      refine ⟨?_, ?_, ?_, ?_, ?_⟩ <;>
      simp_all [requestGetLinksets, requestSetLinksets,
        LinksetsResponder.mkResponder]

/-- C7 witness: in the full-capability environment a get request starts, a
singleton object-only set request starts, and the empty set request
completes synchronously because nothing is encoded. -/
theorem C7_synchronous_status_witness :
    ((requestGetLinksets fullCapabilityEnv).status = kLinksetsRequestNotEnabled ∨
     (requestGetLinksets fullCapabilityEnv).status = kLinksetsRequestStarted) ∧
    ((requestSetLinksets fullCapabilityEnv [] 0 0 0 0 0).status
        = kLinksetsRequestCompleted ↔
      ((getObjectLinksetsURLForCurrentRegion fullCapabilityEnv).isEmpty = false ∧
       (getTerrainLinksetsURLForCurrentRegion fullCapabilityEnv).isEmpty = false ∧
       (encodeObjectFields [] 0 0 0 0 0).isNone = true ∧
       (if isAllowViewTerrainProperties fullCapabilityEnv then
          encodeTerrainFields [] 0 0 0 0 0
        else none).isNone = true)) :=
  ⟨(C7_synchronous_status fullCapabilityEnv [] 0 0 0 0 0).1,
   (C7_synchronous_status fullCapabilityEnv [] 0 0 0 0 0).2.2.2.1⟩

/-- C10: requestGetLinksets resolves synchronously to
kLinksetsRequestNotEnabled — creating no responder, issuing no request, and
hence never invoking the callback — whenever either the object-linksets or
the terrain-linksets capability URL is empty, independent of the terrain
view permission: an absent terrain capability disables the whole operation
even though the terrain GET would not have been issued anyway. -/
theorem C10_missing_capability_disables (env : Env)
    (h : (getObjectLinksetsURLForCurrentRegion env).isEmpty = true ∨
         (getTerrainLinksetsURLForCurrentRegion env).isEmpty = true) :
    requestGetLinksets env =
      { status := kLinksetsRequestNotEnabled, responder := none, requests := [] } := by
  rcases h with h | h <;> simp [requestGetLinksets, h]

/-- A region exposing only the object-linksets capability, without estate
powers: the terrain capability is absent and the caller could not view
terrain properties anyway. -/
def objectOnlyRegion : Region :=
  { regionID := 8
    canManageEstate := false
    getCapability := fun name =>
      if name == CAP_SERVICE_OBJECT_LINKSETS then "object-linksets-url" else "" }

/-- An environment whose current region lacks the terrain-linksets capability
and whose agent lacks terrain-view permission. -/
def objectOnlyEnv : Env :=
  { currentRegion := some objectOnlyRegion, isGodlike := false }

/-- C10 witness: in the object-only environment — where the caller also lacks
terrain-view permission — the get request is fully disabled. -/
theorem C10_missing_capability_disables_witness :
    requestGetLinksets objectOnlyEnv =
      { status := kLinksetsRequestNotEnabled, responder := none, requests := [] } ∧
    isAllowViewTerrainProperties objectOnlyEnv = false :=
  ⟨C10_missing_capability_disables objectOnlyEnv (Or.inr (by decide)), by decide⟩

/-- The stored agent state after setAgentState is the value passed, in both
branches of the error check. -/
theorem setAgentState_agentState (st : ManagerState) (s : EAgentState) :
    (setAgentState st s).agentState = s := by
  by_cases hs : s = kAgentStateError <;> simp [setAgentState, hs]

/-- The last-known-non-error tracker after setAgentState: updated to the new
value unless that value is the error state. -/
theorem setAgentState_lastKnownNonError (st : ManagerState) (s : EAgentState) :
    (setAgentState st s).lastKnownNonErrorAgentState
      = if s ≠ kAgentStateError then s else st.lastKnownNonErrorAgentState := by
  by_cases hs : s = kAgentStateError <;> simp [setAgentState, hs]

/-- C4: for every valid target state T (kAgentStateFrozen or
kAgentStateUnfrozen), requestSetAgentState with the capability present
issues one POST carrying the boolean (T = kAgentStateUnfrozen) in both the
primary and the deprecated field, tagged with T, and leaves the agent state
untouched; a subsequent successful response whose decoded state equals T
sets the agent state to T — so getAgentState returns T when pathfinding is
enabled — while a response whose decoded state differs from T sets the agent
state to kAgentStateError. -/
theorem C4_set_agent_state_reconciliation (env : Env) (st : ManagerState)
    (T : EAgentState) (hT : isValidAgentState T = true)
    (hurl : (getAgentStateURLForCurrentRegion env).isEmpty = false)
    (henabled : isPathfindingEnabledForCurrentRegion env = true)
    (pContent : LLSDAgentStateContent) :
    (requestSetAgentState env st T).httpLog = st.httpLog ++
      [HttpRequest.agentStatePost (getAgentStateURLForCurrentRegion env)
        (T == kAgentStateUnfrozen) (T == kAgentStateUnfrozen) T] ∧
    (requestSetAgentState env st T).agentState = st.agentState ∧
    (decodeAgentStateContent pContent = T →
      (handleAgentStateResult (requestSetAgentState env st T) pContent T).agentState
        = T ∧
      (getAgentState env
        (handleAgentStateResult (requestSetAgentState env st T) pContent T)).2 = T) ∧
    (decodeAgentStateContent pContent ≠ T →
      (handleAgentStateResult (requestSetAgentState env st T) pContent T).agentState
        = kAgentStateError) := by
  refine ⟨?_, ?_, ?_, ?_⟩
  · simp [requestSetAgentState, hurl]
  · simp [requestSetAgentState, hurl]
  · intro hdec
    have hstate :
        (handleAgentStateResult (requestSetAgentState env st T) pContent T).agentState
          = T := by
      simp [handleAgentStateResult, hdec, setAgentState_agentState]
    refine ⟨hstate, ?_⟩
    simp [getAgentState, henabled, hstate, hT]
  · intro hdec
    simp [handleAgentStateResult, setAgentState_agentState, hT, hdec]

/-- The response body of a successful set to kAgentStateUnfrozen: the primary
boolean field present and true. -/
def unfrozenContent : LLSDAgentStateContent :=
  { alterNavmeshObjects := some true, alterPermanentObjects := none }

/-- C4 witness: in the full-capability environment, setting the target
kAgentStateUnfrozen and receiving the matching response yields agent state
kAgentStateUnfrozen, with the POST carrying true in both fields. -/
theorem C4_set_agent_state_reconciliation_witness :
    (requestSetAgentState fullCapabilityEnv initialManagerState
        kAgentStateUnfrozen).httpLog = initialManagerState.httpLog ++
      [HttpRequest.agentStatePost
        (getAgentStateURLForCurrentRegion fullCapabilityEnv) true true
        kAgentStateUnfrozen] ∧
    (handleAgentStateResult
        (requestSetAgentState fullCapabilityEnv initialManagerState
          kAgentStateUnfrozen)
        unfrozenContent kAgentStateUnfrozen).agentState = kAgentStateUnfrozen :=
  ⟨(C4_set_agent_state_reconciliation fullCapabilityEnv initialManagerState
      kAgentStateUnfrozen (by decide) (by decide) (by decide) unfrozenContent).1,
   ((C4_set_agent_state_reconciliation fullCapabilityEnv initialManagerState
      kAgentStateUnfrozen (by decide) (by decide) (by decide)
      unfrozenContent).2.2.1 (by decide)).1⟩

/-- The manager state reached from the initial one by a sequence of
setAgentState calls. -/
def applyAgentStates (vs : List EAgentState) : ManagerState :=
  vs.foldl setAgentState initialManagerState

/-- The most recent value of the sequence that is not the error state,
falling back to the initial kAgentStateUnknown; the specification-side
characterization used to state C9. -/
def mostRecentNonError (vs : List EAgentState) : EAgentState :=
  vs.foldl (fun acc s => if s ≠ kAgentStateError then s else acc) kAgentStateUnknown

/-- Helper for C9: folding setAgentState tracks, in the last-known field,
exactly the fold that keeps the most recent non-error value. -/
theorem foldl_setAgentState_lastKnown (vs : List EAgentState) :
    ∀ st : ManagerState,
      (vs.foldl setAgentState st).lastKnownNonErrorAgentState
        = vs.foldl (fun acc s => if s ≠ kAgentStateError then s else acc)
            st.lastKnownNonErrorAgentState := by
  induction vs with
  | nil => intro st; rfl
  | cons v tl ih =>
    intro st
    rw [List.foldl_cons, List.foldl_cons, ih, setAgentState_lastKnownNonError]

/-- Helper for C9: the most-recent-non-error fold never produces the error
state when started from a non-error value. -/
theorem foldl_mostRecentNonError_ne_error (vs : List EAgentState) :
    ∀ acc : EAgentState, acc ≠ kAgentStateError →
      vs.foldl (fun acc s => if s ≠ kAgentStateError then s else acc) acc
        ≠ kAgentStateError := by
  induction vs with
  | nil => exact fun acc h => h
  | cons v tl ih =>
    intro acc hacc
    by_cases hv : v = kAgentStateError
    · simpa [List.foldl_cons, hv] using ih acc hacc
    · simpa [List.foldl_cons, hv] using ih v hv

/-- C9: every setAgentState call broadcasts exactly the new state to the
agent-state listeners (one signal appended per transition), and after any
sequence of transitions from the initial state,
getLastKnownNonErrorAgentState returns the most recently set state that was
not kAgentStateError (kAgentStateUnknown when none was set), and in
particular never returns kAgentStateError. -/
theorem C9_broadcast_and_last_known (vs : List EAgentState) (s : EAgentState) :
    (setAgentState (applyAgentStates vs) s).agentStateSignalLog
      = (applyAgentStates vs).agentStateSignalLog ++ [s] ∧
    getLastKnownNonErrorAgentState (applyAgentStates vs) = mostRecentNonError vs ∧
    getLastKnownNonErrorAgentState (applyAgentStates vs) ≠ kAgentStateError := by
  have hlast : getLastKnownNonErrorAgentState (applyAgentStates vs)
      = mostRecentNonError vs := by
    have := foldl_setAgentState_lastKnown vs initialManagerState
    simpa [applyAgentStates, getLastKnownNonErrorAgentState, mostRecentNonError,
      initialManagerState] using this
  refine ⟨?_, hlast, ?_⟩
  · by_cases hs : s = kAgentStateError <;> simp [setAgentState, hs]
  · rw [hlast]
    exact foldl_mostRecentNonError_ne_error vs kAgentStateUnknown (by simp)

/-- The issued-request log is untouched by setAgentState. -/
theorem setAgentState_httpLog (st : ManagerState) (s : EAgentState) :
    (setAgentState st s).httpLog = st.httpLog := by
  by_cases hs : s = kAgentStateError <;> simp [setAgentState, hs]

/-- A region exposing only the retrieve-navmesh capability: pathfinding is
enabled there, but the agent-state capability is absent. -/
def navMeshOnlyRegion : Region :=
  { regionID := 9
    canManageEstate := false
    getCapability := fun name =>
      if name == CAP_SERVICE_RETRIEVE_NAVMESH then "navmesh-url" else "" }

/-- An environment whose current region has the retrieve-navmesh capability
but not the agent-state capability. -/
def navMeshOnlyEnv : Env :=
  { currentRegion := some navMeshOnlyRegion, isGodlike := false }

/-- C8 counterexample: with pathfinding enabled but the agent-state
capability absent, getAgentState on the initial (Unknown, hence not
previously confirmed) state issues no GET at all and returns
kAgentStateNotEnabled instead of the current Unknown value: the claim says
this case issues an asynchronous GET and returns the current value. -/
theorem C8_counterexample :
    isPathfindingEnabledForCurrentRegion navMeshOnlyEnv = true ∧
    initialManagerState.agentState = kAgentStateUnknown ∧
    (getAgentState navMeshOnlyEnv initialManagerState).2 = kAgentStateNotEnabled ∧
    (getAgentState navMeshOnlyEnv initialManagerState).1.httpLog = [] := by
  decide

/-- C8 (amended): when pathfinding is disabled for the current region,
getAgentState forces the state to kAgentStateNotEnabled and returns it,
issuing nothing; when pathfinding is enabled and the current state is not a
previously-confirmed one (not kAgentStateFrozen or kAgentStateUnfrozen),
then with the agent-state capability present it issues one asynchronous GET
and returns the current possibly stale value unchanged, while with that
capability absent it sets and returns kAgentStateNotEnabled without issuing
anything; when the current state is already confirmed it returns it with no
side effect at all. -/
theorem C8_get_agent_state_cases (env : Env) (st : ManagerState) :
    (isPathfindingEnabledForCurrentRegion env = false →
      (getAgentState env st).2 = kAgentStateNotEnabled ∧
      (getAgentState env st).1.agentState = kAgentStateNotEnabled ∧
      (getAgentState env st).1.httpLog = st.httpLog) ∧
    (isPathfindingEnabledForCurrentRegion env = true →
      isValidAgentState st.agentState = false →
      (((getAgentStateURLForCurrentRegion env).isEmpty = false →
        (getAgentState env st).2 = st.agentState ∧
        (getAgentState env st).1.httpLog = st.httpLog ++
          [HttpRequest.agentStateGet (getAgentStateURLForCurrentRegion env)]) ∧
       ((getAgentStateURLForCurrentRegion env).isEmpty = true →
        (getAgentState env st).2 = kAgentStateNotEnabled ∧
        (getAgentState env st).1.httpLog = st.httpLog))) ∧
    (isPathfindingEnabledForCurrentRegion env = true →
      isValidAgentState st.agentState = true →
      (getAgentState env st).2 = st.agentState ∧ (getAgentState env st).1 = st) := by
  refine ⟨?_, ?_, ?_⟩
  · intro hdis
    refine ⟨?_, ?_, ?_⟩ <;>
      simp [getAgentState, hdis, setAgentState_agentState, setAgentState_httpLog]
  · intro hen hval
    refine ⟨?_, ?_⟩
    · intro hurl
      refine ⟨?_, ?_⟩ <;>
        simp [getAgentState, hen, hval, requestGetAgentState, hurl]
    · intro hurl
      refine ⟨?_, ?_⟩ <;>
        simp [getAgentState, hen, hval, requestGetAgentState, hurl,
          setAgentState_agentState, setAgentState_httpLog]
  · intro hen hval
    refine ⟨?_, ?_⟩ <;> simp [getAgentState, hen, hval]

/-- An environment with no current region at all: every capability lookup is
empty and pathfinding is disabled. -/
def noRegionEnv : Env :=
  { currentRegion := none, isGodlike := false }

/-- C8 witness: with no region, getAgentState returns kAgentStateNotEnabled;
in the full-capability environment on the initial Unknown state it returns
Unknown unchanged and issues exactly one agent-state GET. -/
theorem C8_get_agent_state_cases_witness :
    (getAgentState noRegionEnv initialManagerState).2 = kAgentStateNotEnabled ∧
    ((getAgentState fullCapabilityEnv initialManagerState).2
        = initialManagerState.agentState ∧
     (getAgentState fullCapabilityEnv initialManagerState).1.httpLog
        = initialManagerState.httpLog ++
          [HttpRequest.agentStateGet
            (getAgentStateURLForCurrentRegion fullCapabilityEnv)]) :=
  ⟨((C8_get_agent_state_cases noRegionEnv initialManagerState).1 (by decide)).1,
   ((C8_get_agent_state_cases fullCapabilityEnv initialManagerState).2.1
      (by decide) (by decide)).1 (by decide)⟩

/-- Writing a cache entry back leaves the issued-request log untouched. -/
theorem setNavMesh_httpLog (st : ManagerState) (u : Nat) (e : LLPathfindingNavMesh) :
    (setNavMesh st u e).httpLog = st.httpLog := rfl

/-- Writing a cache entry back leaves the version counter untouched. -/
theorem setNavMesh_version (st : ManagerState) (u : Nat) (e : LLPathfindingNavMesh) :
    (setNavMesh st u e).navMeshVersionXXX = st.navMeshVersionXXX := rfl

/-- Looking up (and lazily creating) a cache entry leaves the issued-request
log untouched. -/
theorem getNavMeshForRegionUUID_httpLog (st : ManagerState) (u : Nat) :
    (getNavMeshForRegionUUID st u).2.httpLog = st.httpLog := by
  unfold getNavMeshForRegionUUID
  split <;> rfl

/-- Looking up (and lazily creating) a cache entry leaves the version counter
untouched. -/
theorem getNavMeshForRegionUUID_version (st : ManagerState) (u : Nat) :
    (getNavMeshForRegionUUID st u).2.navMeshVersionXXX = st.navMeshVersionXXX := by
  unfold getNavMeshForRegionUUID
  split <;> rfl

/-- C5: when the cache entry for the region already has the current global
navmesh version, requestGetNavMeshForRegion reduces to writing back the
entry after handleRefresh — the immediate re-announce to its listeners — and
issues no network call; and conversely, whenever the call does issue a
network operation, the entry was stale, the region was non-null, the
retrieve-navmesh capability URL was non-empty, and the operation is exactly
one POST to that URL at the current version. -/
theorem C5_fresh_refresh_no_network (st : ManagerState) (pRegion : Option Region) :
    ((getNavMeshForRegion st pRegion).1.hasNavMeshVersion st.navMeshVersionXXX = true →
      requestGetNavMeshForRegion st pRegion =
        setNavMesh (getNavMeshForRegion st pRegion).2
          (getNavMeshForRegion st pRegion).1.regionUUID
          (getNavMeshForRegion st pRegion).1.handleRefresh ∧
      (requestGetNavMeshForRegion st pRegion).httpLog = st.httpLog) ∧
    ((requestGetNavMeshForRegion st pRegion).httpLog ≠ st.httpLog →
      (getNavMeshForRegion st pRegion).1.hasNavMeshVersion st.navMeshVersionXXX
          = false ∧
      pRegion ≠ none ∧
      (getRetrieveNavMeshURLForRegion pRegion).isEmpty = false ∧
      (requestGetNavMeshForRegion st pRegion).httpLog = st.httpLog ++
        [HttpRequest.navMeshPost (getRetrieveNavMeshURLForRegion pRegion)
          st.navMeshVersionXXX]) := by
  have hbase : (getNavMeshForRegion st pRegion).2.httpLog = st.httpLog := by
    unfold getNavMeshForRegion
    exact getNavMeshForRegionUUID_httpLog st _
  have hver : (getNavMeshForRegion st pRegion).2.navMeshVersionXXX
      = st.navMeshVersionXXX := by
    unfold getNavMeshForRegion
    exact getNavMeshForRegionUUID_version st _
  constructor
  · intro hfresh
    constructor
    · simp [requestGetNavMeshForRegion, hver, hfresh]
    · simp [requestGetNavMeshForRegion, hver, hfresh, setNavMesh_httpLog, hbase]
  · intro hnet
    by_cases hfresh :
        (getNavMeshForRegion st pRegion).1.hasNavMeshVersion st.navMeshVersionXXX
    · exact absurd (by
        simp [requestGetNavMeshForRegion, hver, hfresh, setNavMesh_httpLog, hbase]) hnet
    · cases pRegion with
      | none =>
        exact absurd (by
          simp [requestGetNavMeshForRegion, hver, hfresh, setNavMesh_httpLog, hbase]) hnet
      | some region =>
        by_cases hurl : (getRetrieveNavMeshURLForRegion (some region)).isEmpty
        · exact absurd (by
            simp [requestGetNavMeshForRegion, hver, hfresh, hurl, setNavMesh_httpLog,
              hbase]) hnet
        · refine ⟨by simpa using hfresh, by simp, by simpa using hurl, ?_⟩
          simp [requestGetNavMeshForRegion, hver, hfresh, hurl, setNavMesh_httpLog,
            setNavMesh_version, hbase]

/-- A cache entry holding completed navmesh data for version 3. -/
def freshNavMeshEntry : LLPathfindingNavMesh :=
  { regionUUID := 7
    navMeshRequestStatus := kNavMeshRequestCompleted
    navMeshVersion := 3
    navMeshData := some 11
    listenerLog := [] }

/-- A manager state whose global version is 3 and whose entry for region 7
already has completed version-3 data. -/
def freshNavMeshState : ManagerState :=
  { initialManagerState with
      navMeshMap := [(7, freshNavMeshEntry)]
      navMeshVersionXXX := 3 }

/-- C5 witness: on the fresh state the request issues nothing, and on the
initial (stale) state with the capability present it issues exactly the one
POST at the current version. -/
theorem C5_fresh_refresh_no_network_witness :
    (requestGetNavMeshForRegion freshNavMeshState (some fullCapabilityRegion)).httpLog
        = freshNavMeshState.httpLog ∧
    (requestGetNavMeshForRegion initialManagerState (some fullCapabilityRegion)).httpLog
        = initialManagerState.httpLog ++
          [HttpRequest.navMeshPost
            (getRetrieveNavMeshURLForRegion (some fullCapabilityRegion))
            initialManagerState.navMeshVersionXXX] :=
  ⟨((C5_fresh_refresh_no_network freshNavMeshState (some fullCapabilityRegion)).1
      (by decide)).2,
   ((C5_fresh_refresh_no_network initialManagerState (some fullCapabilityRegion)).2
      (by decide)).2.2.2⟩

/-- A cache entry holding completed data at the pre-wraparound version. -/
def wrapAroundEntry : LLPathfindingNavMesh :=
  { regionUUID := 7
    navMeshRequestStatus := kNavMeshRequestCompleted
    navMeshVersion := 4294967295
    navMeshData := some 0
    listenerLog := [] }

/-- A manager state at the largest U32 version with a fresh entry for region
7. -/
def wrapAroundState : ManagerState :=
  { initialManagerState with
      navMeshMap := [(7, wrapAroundEntry)]
      navMeshVersionXXX := 4294967295 }

/-- C6 counterexample: a navmesh-changed notification for region 9 at the
largest U32 counter value wraps the counter to 0 — not a strict increase —
and the untouched entry for region 7 still satisfies hasNavMeshVersion at
the previous counter value, where the claim requires it to be false on every
existing entry. -/
theorem C6_counterexample :
    ¬ (wrapAroundState.navMeshVersionXXX
        < (handleNavMeshUpdate wrapAroundState 9 0).navMeshVersionXXX) ∧
    (findNavMesh (handleNavMeshUpdate wrapAroundState 9 0) 7).map
        (fun e => e.hasNavMeshVersion wrapAroundState.navMeshVersionXXX)
      = some true := by
  decide

/-- C6 (amended): handleNavMeshUpdate advances the U32 counter by one modulo
2 ^ 32 — a strict increase whenever no wraparound occurs — and invalidates
freshness against the new current version: afterwards hasNavMeshVersion at
the new counter value is false for every entry of the cache map, provided
every stored entry version was at most the previous counter (as holds in
every run); freshness of untouched entries at the old counter value is not
cleared. -/
theorem C6_version_bump_invalidates (st : ManagerState)
    (pRegionUUID pNavMeshVersion : Nat)
    (hnowrap : st.navMeshVersionXXX + 1 < 4294967296)
    (hbound : ∀ p ∈ st.navMeshMap, p.2.navMeshVersion ≤ st.navMeshVersionXXX) :
    (handleNavMeshUpdate st pRegionUUID pNavMeshVersion).navMeshVersionXXX
        = st.navMeshVersionXXX + 1 ∧
    st.navMeshVersionXXX
        < (handleNavMeshUpdate st pRegionUUID pNavMeshVersion).navMeshVersionXXX ∧
    ∀ q ∈ (handleNavMeshUpdate st pRegionUUID pNavMeshVersion).navMeshMap,
      q.2.hasNavMeshVersion
        (handleNavMeshUpdate st pRegionUUID pNavMeshVersion).navMeshVersionXXX
        = false := by
  have hmod : (st.navMeshVersionXXX + 1) % 4294967296 = st.navMeshVersionXXX + 1 :=
    Nat.mod_eq_of_lt hnowrap
  cases hfind : st.navMeshMap.find? (fun p => p.1 == pRegionUUID) with
  | none =>
    have hversion :
        (handleNavMeshUpdate st pRegionUUID pNavMeshVersion).navMeshVersionXXX
          = st.navMeshVersionXXX + 1 := by
      simp [handleNavMeshUpdate, getNavMeshForRegionUUID, hfind, setNavMesh, hmod]
    refine ⟨hversion, by omega, ?_⟩
    intro q hq
    rw [hversion]
    have hq' : q ∈ (setNavMesh
        { st with
            navMeshMap := st.navMeshMap ++
              [(pRegionUUID, LLPathfindingNavMesh.mkNavMesh pRegionUUID)]
            navMeshVersionXXX := (st.navMeshVersionXXX + 1) % 4294967296 }
        pRegionUUID
        ((LLPathfindingNavMesh.mkNavMesh pRegionUUID).handleNavMeshNewVersion
          ((st.navMeshVersionXXX + 1) % 4294967296))).navMeshMap := by
      simpa [handleNavMeshUpdate, getNavMeshForRegionUUID, hfind] using hq
    simp only [setNavMesh, List.mem_map, List.mem_append] at hq'
    obtain ⟨p, hp, rfl⟩ := hq'
    by_cases hkey : p.1 == pRegionUUID
    · have hne : (LLPathfindingNavMesh.mkNavMesh pRegionUUID).navMeshVersion
          ≠ st.navMeshVersionXXX + 1 := by
        simp [LLPathfindingNavMesh.mkNavMesh]
      simp [hkey, LLPathfindingNavMesh.handleNavMeshNewVersion, hne,
        LLPathfindingNavMesh.hasNavMeshVersion, hmod]
    · rcases hp with hp | hp
      · have hle := hbound p hp
        have hne : p.2.navMeshVersion ≠ st.navMeshVersionXXX + 1 := by omega
        simp [hkey, LLPathfindingNavMesh.hasNavMeshVersion, hne]
      · simp only [List.mem_singleton] at hp
        subst hp
        simp at hkey
  | some p0 =>
    have hp0 : p0 ∈ st.navMeshMap := List.mem_of_find?_eq_some hfind
    have hversion :
        (handleNavMeshUpdate st pRegionUUID pNavMeshVersion).navMeshVersionXXX
          = st.navMeshVersionXXX + 1 := by
      simp [handleNavMeshUpdate, getNavMeshForRegionUUID, hfind, setNavMesh, hmod]
    refine ⟨hversion, by omega, ?_⟩
    intro q hq
    rw [hversion]
    have hq' : q ∈ (setNavMesh
        { st with navMeshVersionXXX := (st.navMeshVersionXXX + 1) % 4294967296 }
        pRegionUUID
        (p0.2.handleNavMeshNewVersion ((st.navMeshVersionXXX + 1) % 4294967296))).navMeshMap := by
      simpa [handleNavMeshUpdate, getNavMeshForRegionUUID, hfind] using hq
    simp only [setNavMesh, List.mem_map] at hq'
    obtain ⟨p, hp, rfl⟩ := hq'
    by_cases hkey : p.1 == pRegionUUID
    · have hle := hbound p0 hp0
      have hne : p0.2.navMeshVersion ≠ st.navMeshVersionXXX + 1 := by omega
      simp [hkey, LLPathfindingNavMesh.handleNavMeshNewVersion, hne,
        LLPathfindingNavMesh.hasNavMeshVersion, hmod]
    · have hle := hbound p hp
      have hne : p.2.navMeshVersion ≠ st.navMeshVersionXXX + 1 := by omega
      simp [hkey, LLPathfindingNavMesh.hasNavMeshVersion, hne]

/-- C6 witness: on the version-3 state a notification for region 9 bumps the
counter to 4 and every entry of the resulting map — including the untouched
fresh entry for region 7 — fails hasNavMeshVersion at the new counter. -/
theorem C6_version_bump_invalidates_witness :
    (handleNavMeshUpdate freshNavMeshState 9 0).navMeshVersionXXX
        = freshNavMeshState.navMeshVersionXXX + 1 ∧
    ∀ q ∈ (handleNavMeshUpdate freshNavMeshState 9 0).navMeshMap,
      q.2.hasNavMeshVersion
        (handleNavMeshUpdate freshNavMeshState 9 0).navMeshVersionXXX = false :=
  ⟨(C6_version_bump_invalidates freshNavMeshState 9 0 (by decide) (by decide)).1,
   (C6_version_bump_invalidates freshNavMeshState 9 0 (by decide) (by decide)).2.2⟩
